import Mathlib

set_option maxRecDepth 8192

/-!
Verification of the mbserver Modbus slave engine (`src/server.go`).

The embedding below translates the server's data model and operations into
Lean definitions:

* Go `uint8` keys (slave IDs and function codes) become `Fin 256`.
* Go maps `map[uint8]V` become functions `Fin 256 → Option V`.
* The Go array `functionCodeTable [256](func(*Server, Framer) ([]byte, *Exception))`
  becomes `Fin 256 → Option (Handler α)`: a `nil` entry is `none`.
* Handler function values are modelled as elements of the inductive type
  `Handler α`: the eight standard handlers of the repository (defined outside
  `src/`, in the package's function-handler file) are opaque named
  constructors, and `custom a` stands for any other handler value.  Their
  behaviour is supplied to the dispatcher by an interpretation
  `interp : Handler α → Server α → Frame → List Nat × ExcPtr`, mirroring the
  Go handler signature `func(*Server, Framer) ([]byte, *Exception)`.
* A Go `*Exception` pointer is modelled by `ExcPtr`; Lean equality on `ExcPtr`
  models Go pointer equality, so the dispatcher's test `exception != &Success`
  becomes `exception ≠ ExcPtr.successPtr`.
* The dispatcher `handle` is instrumented: besides the response frame it also
  records the final value of its local `exception` variable and the list of
  handler invocations it performed (handler value paired with the frame
  argument), so that theorems can speak about which handler ran and how often.

The transport side (net.Listener, serial.Port, the request channel and the
`handler` goroutine, `Close`) is concurrency and I/O and is not embedded.
-/

/-- Unsigned 8-bit values: slave IDs and function codes. -/
abbrev U8 := Fin 256

/-- Modelled from the spec: the protocol `Exception` values live outside
`src/` (the repository's exception file).  `ExcPtr` models a Go `*Exception`
pointer value.  The distinguished package-level variables `Success`,
`IllegalFunction` and `SlaveDeviceFailure` referenced by `src/server.go` get
one constructor each; `otherPtr v` stands for a pointer to any other
`Exception` object (another package-level variable or a fresh allocation).
Equality of `ExcPtr` values models Go pointer equality. -/
inductive ExcPtr where
  | successPtr
  | illegalFunctionPtr
  | slaveDeviceFailurePtr
  | otherPtr (v : Nat)
deriving DecidableEq, Repr

/-- Modelled from the spec: the `Framer` interface is implemented outside
`src/`.  Per the spec's frame contract, a frame carries addressing metadata
(`slaveID`, `function`), a payload (`data`), and an optional attached
exception; `copy()` preserves the header/addressing metadata with cleared
payload, `setData` installs payload bytes and `setException` attaches an
exception to the frame. -/
structure Frame where
  slaveID : U8
  function : U8
  data : List Nat
  exception : Option ExcPtr
deriving DecidableEq, Repr

/-- Modelled from the spec: `copy()` returns a new frame preserving the
header/addressing metadata with cleared payload. -/
def Frame.Copy (f : Frame) : Frame :=
  { f with data := [], exception := none }

/-- Framer method: the frame's function code. -/
def Frame.GetFunction (f : Frame) : U8 := f.function

/-- Framer method: the frame's slave (device) ID. -/
def Frame.GetSlaveID (f : Frame) : U8 := f.slaveID

/-- Modelled from the spec: `setData(bytes)` embeds payload bytes in the frame. -/
def Frame.SetData (f : Frame) (d : List Nat) : Frame :=
  { f with data := d }

/-- Modelled from the spec: `setException(exception)` attaches an exception to
the frame. -/
def Frame.SetException (f : Frame) (e : ExcPtr) : Frame :=
  { f with exception := some e }

/-- Handler function values stored in a `functionCodeTable`.  The eight named
constructors are the standard handlers that `NewServer` installs (their code
is outside `src/`, so they are opaque here); `custom a` is any other handler
value a client registers. -/
inductive Handler (α : Type) where
  | ReadCoils
  | ReadDiscreteInputs
  | ReadHoldingRegisters
  | ReadInputRegisters
  | WriteSingleCoil
  | WriteHoldingRegister
  | WriteMultipleCoils
  | WriteHoldingRegisters
  | custom (a : α)
deriving DecidableEq, Repr

/-- The Go array type `functionCodeTable`: 256 handler slots, `none` = nil. -/
abbrev functionCodeTable (α : Type) := U8 → Option (Handler α)

/-- The `Server` struct of `src/server.go`, restricted to the dispatch state:
the per-slave function dispatch map and the four per-slave register maps.
`Debug`, the listeners/ports bookkeeping and the request channel are
transport/concurrency state and are not part of the dispatch model.
Discrete inputs and coils are `[]byte`, holding and input registers are
`[]uint16`; both element kinds are modelled as `Nat` entries. -/
structure Server (α : Type) where
  function : U8 → Option (functionCodeTable α)
  DiscreteInputs : U8 → Option (List Nat)
  Coils : U8 → Option (List Nat)
  HoldingRegisters : U8 → Option (List Nat)
  InputRegisters : U8 → Option (List Nat)

/-- The freshly allocated `Server{}` with empty maps (before `NewServer`'s
initialisation loop). -/
def emptyServer (α : Type) : Server α :=
  { function := fun _ => none
    DiscreteInputs := fun _ => none
    Coils := fun _ => none
    HoldingRegisters := fun _ => none
    InputRegisters := fun _ => none }

/-- Errors returned by `RegisterFunctionHandler`: the `fmt.Errorf` value
produced for an undefined slave ID, carrying that ID. -/
inductive RegisterError where
  | undefinedSlaveID (slaveID : U8)
deriving DecidableEq, Repr

/-- The method `(*Server).RegisterFunctionHandler` of `src/server.go`: look up
the slave's `functionCodeTable`; if the slave ID is not present return an
error and leave the server untouched, otherwise store the handler at
`funcCode` in (a copy of) the table and write the table back.  The Go method
mutates the receiver and returns `error`; here it returns the error option
paired with the resulting server. -/
def RegisterFunctionHandler (s : Server α) (slaveID funcCode : U8)
    (fn : Handler α) : Option RegisterError × Server α :=
  match s.function slaveID with
  | none => (some (RegisterError.undefinedSlaveID slaveID), s)
  | some table =>
      (none, { s with
        function := Function.update s.function slaveID
          (some (Function.update table funcCode (some fn))) })

/-- A call `s.RegisterFunctionHandler(...)` whose error result is discarded,
as in `NewServer`'s default-handler installation loop. -/
def regIgnore (s : Server α) (slaveID funcCode : U8) (fn : Handler α) :
    Server α :=
  (RegisterFunctionHandler s slaveID funcCode fn).2

/-- One iteration of `NewServer`'s loop body for a slave `ID`: allocate the
four full-size register tables and an empty `functionCodeTable` for `ID`,
then register the eight default function handlers. -/
def initSlave (s : Server α) (ID : U8) : Server α :=
  let s1 : Server α := { s with
    DiscreteInputs :=
      Function.update s.DiscreteInputs ID (some (List.replicate 65536 0))
    Coils := Function.update s.Coils ID (some (List.replicate 65536 0))
    HoldingRegisters :=
      Function.update s.HoldingRegisters ID (some (List.replicate 65536 0))
    InputRegisters :=
      Function.update s.InputRegisters ID (some (List.replicate 65536 0))
    function := Function.update s.function ID (some (fun _ => none)) }
  let s2 := regIgnore s1 ID 1 Handler.ReadCoils
  let s3 := regIgnore s2 ID 2 Handler.ReadDiscreteInputs
  let s4 := regIgnore s3 ID 3 Handler.ReadHoldingRegisters
  let s5 := regIgnore s4 ID 4 Handler.ReadInputRegisters
  let s6 := regIgnore s5 ID 5 Handler.WriteSingleCoil
  let s7 := regIgnore s6 ID 6 Handler.WriteHoldingRegister
  let s8 := regIgnore s7 ID 15 Handler.WriteMultipleCoils
  regIgnore s8 ID 16 Handler.WriteHoldingRegisters

/-- The constructor `NewServer` of `src/server.go`, restricted to its
dispatch-relevant effect: starting from empty maps, run the initialisation
loop over `slaveIDs`.  (The request channel and the background goroutine it
also starts are concurrency wiring, not embedded.) -/
def NewServer (α : Type) (slaveIDs : List U8) : Server α :=
  slaveIDs.foldl initSlave (emptyServer α)

/-- A decoded request: the Go struct pairs an `io.ReadWriteCloser` connection
with the frame; the connection is transport state, modelled as an abstract
identifier unused by dispatch. -/
structure Request where
  conn : Nat
  frame : Frame
deriving DecidableEq, Repr

/-- Result of one `handle` call: the response frame, the final value of the
local `exception` variable, and the instrumentation trace of handler
invocations performed (handler value, frame argument). -/
structure HandleResult (α : Type) where
  response : Frame
  exception : ExcPtr
  calls : List (Handler α × Frame)
deriving Repr

/-- The dispatcher `(*Server).handle` of `src/server.go`.  `interp` supplies
the behaviour of handler values (Go calls the stored function value with
`(s, request.frame)`).  Control flow mirrors the source: copy the request
frame; look up the slave's table (missing slave → `&SlaveDeviceFailure`);
within it look up the function code (nil entry → `&IllegalFunction`,
otherwise invoke the handler and `SetData` its bytes); finally, if the
exception is not pointer-equal to `&Success`, `SetException` it on the
response. -/
def handle (interp : Handler α → Server α → Frame → List Nat × ExcPtr)
    (s : Server α) (request : Request) : HandleResult α :=
  let response := request.frame.Copy
  let function := request.frame.GetFunction
  let slaveID := request.frame.GetSlaveID
  let branch : Frame × ExcPtr × List (Handler α × Frame) :=
    match s.function slaveID with
    | none => (response, ExcPtr.slaveDeviceFailurePtr, [])
    | some functions =>
        match functions function with
        | some fn =>
            let r := interp fn s request.frame
            (response.SetData r.1, r.2, [(fn, request.frame)])
        | none => (response, ExcPtr.illegalFunctionPtr, [])
  { response :=
      if branch.2.1 ≠ ExcPtr.successPtr then branch.1.SetException branch.2.1
      else branch.1
    exception := branch.2.1
    calls := branch.2.2 }

/-- A sequence of `RegisterFunctionHandler` calls (errors discarded), used to
quantify over arbitrary dispatch-table contents reachable after construction. -/
def applyRegs (s : Server α) (regs : List (U8 × U8 × Handler α)) : Server α :=
  regs.foldl (fun s r => regIgnore s r.1 r.2.1 r.2.2) s

/-- The `functionCodeTable` holding exactly the eight default bindings that
`NewServer` installs for each configured slave. -/
def defaultTable (α : Type) : functionCodeTable α :=
  Function.update (Function.update (Function.update (Function.update
    (Function.update (Function.update (Function.update (Function.update
      (fun _ => none)
      1 (some Handler.ReadCoils))
      2 (some Handler.ReadDiscreteInputs))
      3 (some Handler.ReadHoldingRegisters))
      4 (some Handler.ReadInputRegisters))
      5 (some Handler.WriteSingleCoil))
      6 (some Handler.WriteHoldingRegister))
      15 (some Handler.WriteMultipleCoils))
      16 (some Handler.WriteHoldingRegisters)

/-! ### Helper lemmas: effect of registration and initialisation on each field -/

theorem regIgnore_DiscreteInputs (s : Server α) (ID fc : U8) (h : Handler α) :
    (regIgnore s ID fc h).DiscreteInputs = s.DiscreteInputs := by
  unfold regIgnore RegisterFunctionHandler
  cases s.function ID <;> rfl

theorem regIgnore_Coils (s : Server α) (ID fc : U8) (h : Handler α) :
    (regIgnore s ID fc h).Coils = s.Coils := by
  unfold regIgnore RegisterFunctionHandler
  cases s.function ID <;> rfl

theorem regIgnore_HoldingRegisters (s : Server α) (ID fc : U8) (h : Handler α) :
    (regIgnore s ID fc h).HoldingRegisters = s.HoldingRegisters := by
  unfold regIgnore RegisterFunctionHandler
  cases s.function ID <;> rfl

theorem regIgnore_InputRegisters (s : Server α) (ID fc : U8) (h : Handler α) :
    (regIgnore s ID fc h).InputRegisters = s.InputRegisters := by
  unfold regIgnore RegisterFunctionHandler
  cases s.function ID <;> rfl

theorem regIgnore_function_ne {d ID : U8} (hne : d ≠ ID) (s : Server α)
    (fc : U8) (h : Handler α) :
    (regIgnore s ID fc h).function d = s.function d := by
  unfold regIgnore RegisterFunctionHandler
  cases s.function ID with
  | none => rfl
  | some t => simp [Function.update_noteq hne]

theorem regIgnore_function_none {d : U8} {s : Server α}
    (hd : s.function d = none) (ID fc : U8) (h : Handler α) :
    (regIgnore s ID fc h).function d = none := by
  by_cases hde : d = ID
  · subst hde
    simp [regIgnore, RegisterFunctionHandler, hd]
  · rw [regIgnore_function_ne hde]
    exact hd

theorem initSlave_DiscreteInputs (s : Server α) (ID : U8) :
    (initSlave s ID).DiscreteInputs =
      Function.update s.DiscreteInputs ID (some (List.replicate 65536 0)) := by
  unfold initSlave
  simp only [regIgnore_DiscreteInputs]

theorem initSlave_Coils (s : Server α) (ID : U8) :
    (initSlave s ID).Coils =
      Function.update s.Coils ID (some (List.replicate 65536 0)) := by
  unfold initSlave
  simp only [regIgnore_Coils]

theorem initSlave_HoldingRegisters (s : Server α) (ID : U8) :
    (initSlave s ID).HoldingRegisters =
      Function.update s.HoldingRegisters ID (some (List.replicate 65536 0)) := by
  unfold initSlave
  simp only [regIgnore_HoldingRegisters]

theorem initSlave_InputRegisters (s : Server α) (ID : U8) :
    (initSlave s ID).InputRegisters =
      Function.update s.InputRegisters ID (some (List.replicate 65536 0)) := by
  unfold initSlave
  simp only [regIgnore_InputRegisters]

theorem initSlave_function (s : Server α) (ID : U8) :
    (initSlave s ID).function =
      Function.update s.function ID (some (defaultTable α)) := by
  unfold initSlave regIgnore RegisterFunctionHandler
  simp only [Function.update_same, Function.update_idem, defaultTable]

theorem foldl_initSlave_not_mem {ids : List U8} :
    ∀ (s : Server α) (d : U8), d ∉ ids →
      (ids.foldl initSlave s).function d = s.function d ∧
      (ids.foldl initSlave s).DiscreteInputs d = s.DiscreteInputs d ∧
      (ids.foldl initSlave s).Coils d = s.Coils d ∧
      (ids.foldl initSlave s).HoldingRegisters d = s.HoldingRegisters d ∧
      (ids.foldl initSlave s).InputRegisters d = s.InputRegisters d := by
  induction ids with
  | nil => intro s d _; exact ⟨rfl, rfl, rfl, rfl, rfl⟩
  | cons i ids ih =>
    intro s d hd
    have hdi : d ≠ i := fun h => hd (h ▸ List.mem_cons_self i ids)
    have hdids : d ∉ ids := fun h => hd (List.mem_cons_of_mem i h)
    rw [List.foldl_cons]
    obtain ⟨h1, h2, h3, h4, h5⟩ := ih (initSlave s i) d hdids
    rw [h1, h2, h3, h4, h5, initSlave_function, initSlave_DiscreteInputs,
      initSlave_Coils, initSlave_HoldingRegisters, initSlave_InputRegisters]
    exact ⟨Function.update_noteq hdi _ _, Function.update_noteq hdi _ _,
      Function.update_noteq hdi _ _, Function.update_noteq hdi _ _,
      Function.update_noteq hdi _ _⟩

theorem foldl_initSlave_mem {ids : List U8} :
    ∀ (s : Server α) (d : U8), d ∈ ids →
      (ids.foldl initSlave s).function d = some (defaultTable α) ∧
      (ids.foldl initSlave s).DiscreteInputs d = some (List.replicate 65536 0) ∧
      (ids.foldl initSlave s).Coils d = some (List.replicate 65536 0) ∧
      (ids.foldl initSlave s).HoldingRegisters d = some (List.replicate 65536 0) ∧
      (ids.foldl initSlave s).InputRegisters d = some (List.replicate 65536 0) := by
  induction ids with
  | nil => intro s d hd; exact absurd hd (List.not_mem_nil d)
  | cons i ids ih =>
    intro s d hd
    rw [List.foldl_cons]
    by_cases hmem : d ∈ ids
    · exact ih (initSlave s i) d hmem
    · have hdi : d = i := by
        rcases List.mem_cons.mp hd with h | h
        · exact h
        · exact absurd h hmem
      subst hdi
      obtain ⟨h1, h2, h3, h4, h5⟩ := foldl_initSlave_not_mem (initSlave s d) d hmem
      rw [h1, h2, h3, h4, h5, initSlave_function, initSlave_DiscreteInputs,
        initSlave_Coils, initSlave_HoldingRegisters, initSlave_InputRegisters]
      exact ⟨Function.update_same _ _ _, Function.update_same _ _ _,
        Function.update_same _ _ _, Function.update_same _ _ _,
        Function.update_same _ _ _⟩

theorem NewServer_function_not_mem {ids : List U8} {d : U8} (hd : d ∉ ids) :
    (NewServer α ids).function d = none :=
  (foldl_initSlave_not_mem (emptyServer α) d hd).1

theorem applyRegs_function_none {d : U8} {regs : List (U8 × U8 × Handler α)} :
    ∀ {s : Server α}, s.function d = none →
      (applyRegs s regs).function d = none := by
  induction regs with
  | nil => intro s hd; exact hd
  | cons r regs ih =>
    intro s hd
    exact ih (regIgnore_function_none hd r.1 r.2.1 r.2.2)

/-! ### Claim theorems -/

/-- Claim C1: for every frame whose device ID is not in the set of configured
device IDs, dispatch yields a response carrying the device-failure exception,
for every function code 0-255 (the frame's function code is arbitrary) and
regardless of the dispatch table's contents for other devices (any sequence of
registrations performed after construction). -/
theorem c1_unconfigured_device_failure
    (interp : Handler α → Server α → Frame → List Nat × ExcPtr)
    (ids : List U8) (regs : List (U8 × U8 × Handler α)) (req : Request)
    (hd : req.frame.GetSlaveID ∉ ids) :
    (handle interp (applyRegs (NewServer α ids) regs) req).response.exception =
      some ExcPtr.slaveDeviceFailurePtr := by
  have hnone :
      (applyRegs (NewServer α ids) regs).function req.frame.GetSlaveID = none :=
    applyRegs_function_none (NewServer_function_not_mem hd)
  simp [handle, hnone, Frame.SetException]

/-- Witness for C1: device 2 is not configured on a server built for device 1,
and dispatching a frame for device 2 (function code 3) yields the
device-failure exception. -/
theorem c1_witness :
    ((⟨0, ⟨2, 3, [], none⟩⟩ : Request).frame.GetSlaveID ∉ ([1] : List U8)) ∧
    (handle (fun (_ : Handler Unit) _ _ => ([], ExcPtr.successPtr))
      (applyRegs (NewServer Unit [1]) [])
      ⟨0, ⟨2, 3, [], none⟩⟩).response.exception =
        some ExcPtr.slaveDeviceFailurePtr :=
  ⟨by decide, c1_unconfigured_device_failure _ [1] [] _ (by decide)⟩

/-- Claim C2: for every frame addressed to a configured device whose function
code has no bound handler in that device's dispatch table, dispatch yields a
response carrying the illegal-function exception and invokes no handler. -/
theorem c2_unbound_function_illegal
    (interp : Handler α → Server α → Frame → List Nat × ExcPtr)
    (s : Server α) (req : Request) (functions : functionCodeTable α)
    (hc : s.function req.frame.GetSlaveID = some functions)
    (hf : functions req.frame.GetFunction = none) :
    (handle interp s req).response.exception = some ExcPtr.illegalFunctionPtr ∧
    (handle interp s req).calls = [] := by
  constructor <;> simp [handle, hc, hf, Frame.SetException]

/-- Witness for C2: on a server built for device 1, function code 0 of device
1 is unbound; dispatching (device 1, function 0) yields illegal-function and
performs no handler invocation. -/
theorem c2_witness :
    (NewServer Unit [1]).function
        ((⟨0, ⟨1, 0, [], none⟩⟩ : Request).frame.GetSlaveID) =
      some (defaultTable Unit) ∧
    defaultTable Unit ((⟨0, ⟨1, 0, [], none⟩⟩ : Request).frame.GetFunction) =
      none ∧
    ((handle (fun (_ : Handler Unit) _ _ => ([], ExcPtr.successPtr))
        (NewServer Unit [1]) ⟨0, ⟨1, 0, [], none⟩⟩).response.exception =
          some ExcPtr.illegalFunctionPtr ∧
      (handle (fun (_ : Handler Unit) _ _ => ([], ExcPtr.successPtr))
        (NewServer Unit [1]) ⟨0, ⟨1, 0, [], none⟩⟩).calls = []) :=
  ⟨rfl, rfl, c2_unbound_function_illegal _ _ _ (defaultTable Unit) rfl rfl⟩

/-- Claim C5: calling `RegisterFunctionHandler` with a slave ID that was not
part of the initial configuration returns the configuration error and returns
the server state (every dispatch table and every register table) exactly as it
was. -/
theorem c5_register_unconfigured_error
    (s : Server α) (slaveID funcCode : U8) (fn : Handler α)
    (hd : s.function slaveID = none) :
    RegisterFunctionHandler s slaveID funcCode fn =
      (some (RegisterError.undefinedSlaveID slaveID), s) := by
  simp [RegisterFunctionHandler, hd]

/-- Witness for C5: on a server built for device 1, registering a handler for
device 2 fails with the configuration error for device 2 and leaves the
server unchanged. -/
theorem c5_witness :
    (NewServer Unit [1]).function 2 = none ∧
    RegisterFunctionHandler (NewServer Unit [1]) 2 99 Handler.ReadCoils =
      (some (RegisterError.undefinedSlaveID 2), NewServer Unit [1]) :=
  ⟨rfl, c5_register_unconfigured_error (NewServer Unit [1]) 2 99 Handler.ReadCoils rfl⟩

/-- Claim C3: for a configured device and a function code with a bound
handler, dispatching a frame addressed to them invokes exactly that handler,
exactly once, with the server and the request frame as arguments (the
invocation trace is the single entry `(fn, req.frame)` and the payload is
`interp fn s req.frame`); when the handler's outcome is success, the response
carries the handler's returned payload. -/
theorem c3_bound_handler_invoked
    (interp : Handler α → Server α → Frame → List Nat × ExcPtr)
    (s : Server α) (req : Request) (functions : functionCodeTable α)
    (fn : Handler α)
    (hc : s.function req.frame.GetSlaveID = some functions)
    (hf : functions req.frame.GetFunction = some fn) :
    (handle interp s req).calls = [(fn, req.frame)] ∧
    ((interp fn s req.frame).2 = ExcPtr.successPtr →
      (handle interp s req).response.data = (interp fn s req.frame).1 ∧
      (handle interp s req).response.exception = none) := by
  constructor
  · simp [handle, hc, hf]
  · intro hs
    constructor <;>
      simp [handle, hc, hf, hs, Frame.SetData, Frame.Copy]

/-- Witness for C3: on a server built for device 1, function code 1 of device
1 is bound to the standard read-coils handler; dispatching (device 1,
function 1) under an interpretation that succeeds with payload `[7]` invokes
exactly that handler once and the response carries `[7]`. -/
theorem c3_witness :
    (NewServer Unit [1]).function
        ((⟨0, ⟨1, 1, [], none⟩⟩ : Request).frame.GetSlaveID) =
      some (defaultTable Unit) ∧
    defaultTable Unit ((⟨0, ⟨1, 1, [], none⟩⟩ : Request).frame.GetFunction) =
      some Handler.ReadCoils ∧
    ((handle (fun (_ : Handler Unit) _ _ => ([7], ExcPtr.successPtr))
        (NewServer Unit [1]) ⟨0, ⟨1, 1, [], none⟩⟩).calls =
          [(Handler.ReadCoils, (⟨1, 1, [], none⟩ : Frame))] ∧
      (((fun (_ : Handler Unit) _ _ => ([7], ExcPtr.successPtr))
            Handler.ReadCoils (NewServer Unit [1])
            (⟨1, 1, [], none⟩ : Frame)).2 = ExcPtr.successPtr →
        (handle (fun (_ : Handler Unit) _ _ => ([7], ExcPtr.successPtr))
          (NewServer Unit [1]) ⟨0, ⟨1, 1, [], none⟩⟩).response.data = [7] ∧
        (handle (fun (_ : Handler Unit) _ _ => ([7], ExcPtr.successPtr))
          (NewServer Unit [1])
          ⟨0, ⟨1, 1, [], none⟩⟩).response.exception = none)) :=
  ⟨rfl, rfl,
    c3_bound_handler_invoked _ _ _ (defaultTable Unit) Handler.ReadCoils rfl rfl⟩

/-- Claim C6: for a configured device `D` and any function code `F`,
registering a new handler `h` at `(D, F)` succeeds, and every subsequent
dispatch of a frame addressed to `(D, F)` invokes only `h`: the previous
binding is fully replaced. -/
theorem c6_reregister_last_write_wins
    (interp : Handler α → Server α → Frame → List Nat × ExcPtr)
    (s : Server α) (D F : U8) (h : Handler α)
    (tbl : functionCodeTable α) (hc : s.function D = some tbl) :
    (RegisterFunctionHandler s D F h).1 = none ∧
    ∀ (req : Request), req.frame.GetSlaveID = D → req.frame.GetFunction = F →
      (handle interp (RegisterFunctionHandler s D F h).2 req).calls =
        [(h, req.frame)] := by
  constructor
  · simp [RegisterFunctionHandler, hc]
  · intro req hD hF
    subst hD
    subst hF
    simp [handle, RegisterFunctionHandler, hc, Function.update_same]

/-- Witness for C6: re-registering function code 1 of device 1 with a custom
handler succeeds, and a subsequent dispatch of (device 1, function 1) invokes
only the custom handler. -/
theorem c6_witness :
    (NewServer Unit [1]).function 1 = some (defaultTable Unit) ∧
    (RegisterFunctionHandler (NewServer Unit [1]) 1 1
        (Handler.custom ())).1 = none ∧
    (handle (fun (_ : Handler Unit) _ _ => ([], ExcPtr.successPtr))
      (RegisterFunctionHandler (NewServer Unit [1]) 1 1
        (Handler.custom ())).2 ⟨0, ⟨1, 1, [], none⟩⟩).calls =
      [(Handler.custom (), (⟨1, 1, [], none⟩ : Frame))] := by
  have h := c6_reregister_last_write_wins
    (fun (_ : Handler Unit) _ _ => ([], ExcPtr.successPtr))
    (NewServer Unit [1]) 1 1 (Handler.custom ()) (defaultTable Unit) rfl
  exact ⟨rfl, h.1, h.2 ⟨0, ⟨1, 1, [], none⟩⟩ rfl rfl⟩

/-- Claim C10: a successful `RegisterFunctionHandler` call for `(D, F)`
changes at most the single binding at `(D, F)`: the new table at `D` holds
`h` at `F` and agrees with the old table at every other function code, every
other device's dispatch-table entry is unchanged, and all four register maps
are unchanged. -/
theorem c10_register_local_effect
    (s : Server α) (D F : U8) (h : Handler α)
    (tbl : functionCodeTable α) (hc : s.function D = some tbl) :
    (RegisterFunctionHandler s D F h).1 = none ∧
    (∃ tbl2, (RegisterFunctionHandler s D F h).2.function D = some tbl2 ∧
      tbl2 F = some h ∧ ∀ fc, fc ≠ F → tbl2 fc = tbl fc) ∧
    (∀ d, d ≠ D → (RegisterFunctionHandler s D F h).2.function d =
      s.function d) ∧
    (RegisterFunctionHandler s D F h).2.DiscreteInputs = s.DiscreteInputs ∧
    (RegisterFunctionHandler s D F h).2.Coils = s.Coils ∧
    (RegisterFunctionHandler s D F h).2.HoldingRegisters =
      s.HoldingRegisters ∧
    (RegisterFunctionHandler s D F h).2.InputRegisters = s.InputRegisters := by
  refine ⟨?_, ⟨Function.update tbl F (some h), ?_, ?_, ?_⟩, ?_, ?_, ?_, ?_, ?_⟩
  · simp [RegisterFunctionHandler, hc]
  · simp [RegisterFunctionHandler, hc, Function.update_same]
  · exact Function.update_same _ _ _
  · intro fc hne
    exact Function.update_noteq hne _ _
  · intro d hne
    simp [RegisterFunctionHandler, hc, Function.update_noteq hne]
  · simp [RegisterFunctionHandler, hc]
  · simp [RegisterFunctionHandler, hc]
  · simp [RegisterFunctionHandler, hc]
  · simp [RegisterFunctionHandler, hc]

/-- Witness for C10: registering a custom handler at (device 1, function 9)
on a server built for device 1 succeeds, binds function 9, and leaves the
other bindings, the other devices and all register maps unchanged. -/
theorem c10_witness :
    (NewServer Unit [1]).function 1 = some (defaultTable Unit) ∧
    ((RegisterFunctionHandler (NewServer Unit [1]) 1 9
        (Handler.custom ())).1 = none ∧
      (∃ tbl2, (RegisterFunctionHandler (NewServer Unit [1]) 1 9
          (Handler.custom ())).2.function 1 = some tbl2 ∧
        tbl2 9 = some (Handler.custom ()) ∧
        ∀ fc, fc ≠ 9 → tbl2 fc = defaultTable Unit fc) ∧
      (∀ d, d ≠ 1 → (RegisterFunctionHandler (NewServer Unit [1]) 1 9
          (Handler.custom ())).2.function d =
        (NewServer Unit [1]).function d) ∧
      (RegisterFunctionHandler (NewServer Unit [1]) 1 9
          (Handler.custom ())).2.DiscreteInputs =
        (NewServer Unit [1]).DiscreteInputs ∧
      (RegisterFunctionHandler (NewServer Unit [1]) 1 9
          (Handler.custom ())).2.Coils = (NewServer Unit [1]).Coils ∧
      (RegisterFunctionHandler (NewServer Unit [1]) 1 9
          (Handler.custom ())).2.HoldingRegisters =
        (NewServer Unit [1]).HoldingRegisters ∧
      (RegisterFunctionHandler (NewServer Unit [1]) 1 9
          (Handler.custom ())).2.InputRegisters =
        (NewServer Unit [1]).InputRegisters) :=
  ⟨rfl, c10_register_local_effect (NewServer Unit [1]) 1 9
    (Handler.custom ()) (defaultTable Unit) rfl⟩

/-- Claim C4: for every dispatched frame, the response carries an exception if
and only if the dispatcher's final outcome is not (pointer-)equal to the
success value; when the outcome is not success the attached exception is that
outcome, and when it is success the response is the request frame's copy with
the invoked handler's payload embedded via the data-setting capability. -/
theorem c4_success_vs_exception
    (interp : Handler α → Server α → Frame → List Nat × ExcPtr)
    (s : Server α) (req : Request) :
    ((handle interp s req).response.exception.isSome ↔
      (handle interp s req).exception ≠ ExcPtr.successPtr) ∧
    ((handle interp s req).exception ≠ ExcPtr.successPtr →
      (handle interp s req).response.exception =
        some (handle interp s req).exception) ∧
    ((handle interp s req).exception = ExcPtr.successPtr →
      ∃ fn, (handle interp s req).calls = [(fn, req.frame)] ∧
        (handle interp s req).response =
          Frame.SetData (Frame.Copy req.frame) (interp fn s req.frame).1) := by
  cases hc : s.function req.frame.GetSlaveID with
  | none =>
      refine ⟨?_, ?_, ?_⟩ <;>
        simp [handle, hc, Frame.SetException, Frame.Copy]
  | some functions =>
      cases hf : functions req.frame.GetFunction with
      | none =>
          refine ⟨?_, ?_, ?_⟩ <;>
            simp [handle, hc, hf, Frame.SetException, Frame.Copy]
      | some fn =>
          by_cases hs : (interp fn s req.frame).2 = ExcPtr.successPtr
          · refine ⟨?_, ?_, ?_⟩ <;>
              simp [handle, hc, hf, hs, Frame.SetData, Frame.SetException,
                Frame.Copy]
          · refine ⟨?_, ?_, ?_⟩ <;>
              simp [handle, hc, hf, hs, Frame.SetData, Frame.SetException,
                Frame.Copy]

/-- Witness for C4: instantiation at a server built for device 1 and a frame
for (device 1, function 1) under an interpretation that succeeds with payload
`[9]`. -/
theorem c4_witness :
    ((handle (fun (_ : Handler Unit) _ _ => ([9], ExcPtr.successPtr))
        (NewServer Unit [1])
        ⟨0, ⟨1, 1, [], none⟩⟩).response.exception.isSome ↔
      (handle (fun (_ : Handler Unit) _ _ => ([9], ExcPtr.successPtr))
        (NewServer Unit [1])
        ⟨0, ⟨1, 1, [], none⟩⟩).exception ≠ ExcPtr.successPtr) ∧
    ((handle (fun (_ : Handler Unit) _ _ => ([9], ExcPtr.successPtr))
        (NewServer Unit [1])
        ⟨0, ⟨1, 1, [], none⟩⟩).exception ≠ ExcPtr.successPtr →
      (handle (fun (_ : Handler Unit) _ _ => ([9], ExcPtr.successPtr))
        (NewServer Unit [1]) ⟨0, ⟨1, 1, [], none⟩⟩).response.exception =
        some (handle (fun (_ : Handler Unit) _ _ => ([9], ExcPtr.successPtr))
          (NewServer Unit [1]) ⟨0, ⟨1, 1, [], none⟩⟩).exception) ∧
    ((handle (fun (_ : Handler Unit) _ _ => ([9], ExcPtr.successPtr))
        (NewServer Unit [1])
        ⟨0, ⟨1, 1, [], none⟩⟩).exception = ExcPtr.successPtr →
      ∃ fn, (handle (fun (_ : Handler Unit) _ _ => ([9], ExcPtr.successPtr))
          (NewServer Unit [1]) ⟨0, ⟨1, 1, [], none⟩⟩).calls =
            [(fn, (⟨1, 1, [], none⟩ : Frame))] ∧
        (handle (fun (_ : Handler Unit) _ _ => ([9], ExcPtr.successPtr))
          (NewServer Unit [1]) ⟨0, ⟨1, 1, [], none⟩⟩).response =
          Frame.SetData (Frame.Copy (⟨1, 1, [], none⟩ : Frame)) [9]) :=
  c4_success_vs_exception (fun (_ : Handler Unit) _ _ => ([9], ExcPtr.successPtr))
    (NewServer Unit [1]) ⟨0, ⟨1, 1, [], none⟩⟩

/-- Claim C7: after construction with any list of device IDs, every configured
device ID has all four data tables allocated at full fixed capacity (65536
entries each, zero-initialised) and a dispatch-table entry; device IDs not in
the list have neither tables nor a dispatch-table entry. -/
theorem c7_construction_allocation (ids : List U8) (d : U8) :
    (d ∈ ids →
      (NewServer α ids).DiscreteInputs d = some (List.replicate 65536 0) ∧
      (NewServer α ids).Coils d = some (List.replicate 65536 0) ∧
      (NewServer α ids).HoldingRegisters d = some (List.replicate 65536 0) ∧
      (NewServer α ids).InputRegisters d = some (List.replicate 65536 0) ∧
      ∃ t, (NewServer α ids).function d = some t) ∧
    (d ∉ ids →
      (NewServer α ids).DiscreteInputs d = none ∧
      (NewServer α ids).Coils d = none ∧
      (NewServer α ids).HoldingRegisters d = none ∧
      (NewServer α ids).InputRegisters d = none ∧
      (NewServer α ids).function d = none) := by
  constructor
  · intro hd
    obtain ⟨h1, h2, h3, h4, h5⟩ := foldl_initSlave_mem (emptyServer α) d hd
    exact ⟨h2, h3, h4, h5, ⟨_, h1⟩⟩
  · intro hd
    obtain ⟨h1, h2, h3, h4, h5⟩ := foldl_initSlave_not_mem (emptyServer α) d hd
    exact ⟨h2, h3, h4, h5, h1⟩

/-- Witness for C7: on a server built for device 1, device 1 has the four
full-size tables and a dispatch-table entry, and device 2 has none of them. -/
theorem c7_witness :
    ((NewServer Unit [1]).DiscreteInputs 1 = some (List.replicate 65536 0) ∧
      (NewServer Unit [1]).Coils 1 = some (List.replicate 65536 0) ∧
      (NewServer Unit [1]).HoldingRegisters 1 =
        some (List.replicate 65536 0) ∧
      (NewServer Unit [1]).InputRegisters 1 = some (List.replicate 65536 0) ∧
      ∃ t, (NewServer Unit [1]).function 1 = some t) ∧
    ((NewServer Unit [1]).DiscreteInputs 2 = none ∧
      (NewServer Unit [1]).Coils 2 = none ∧
      (NewServer Unit [1]).HoldingRegisters 2 = none ∧
      (NewServer Unit [1]).InputRegisters 2 = none ∧
      (NewServer Unit [1]).function 2 = none) :=
  ⟨(c7_construction_allocation [1] 1).1 (by decide),
    (c7_construction_allocation [1] 2).2 (by decide)⟩

/-- Claim C8: at construction, every configured device's dispatch table holds
exactly the eight default bindings, at function codes 1, 2, 3, 4, 5, 6, 15
and 16, each bound to the corresponding standard handler; every other
function code is unbound. -/
theorem c8_default_bindings (ids : List U8) (d : U8) (hd : d ∈ ids) :
    ∃ t : functionCodeTable α, (NewServer α ids).function d = some t ∧
      t 1 = some Handler.ReadCoils ∧
      t 2 = some Handler.ReadDiscreteInputs ∧
      t 3 = some Handler.ReadHoldingRegisters ∧
      t 4 = some Handler.ReadInputRegisters ∧
      t 5 = some Handler.WriteSingleCoil ∧
      t 6 = some Handler.WriteHoldingRegister ∧
      t 15 = some Handler.WriteMultipleCoils ∧
      t 16 = some Handler.WriteHoldingRegisters ∧
      ∀ fc : U8, fc ∉ ([1, 2, 3, 4, 5, 6, 15, 16] : List U8) → t fc = none := by
  refine ⟨defaultTable α, (foldl_initSlave_mem (emptyServer α) d hd).1,
    rfl, rfl, rfl, rfl, rfl, rfl, rfl, rfl, ?_⟩
  intro fc hfc
  simp only [List.mem_cons, List.not_mem_nil, or_false, not_or] at hfc
  obtain ⟨n1, n2, n3, n4, n5, n6, n15, n16⟩ := hfc
  unfold defaultTable
  rw [Function.update_noteq n16, Function.update_noteq n15,
    Function.update_noteq n6, Function.update_noteq n5,
    Function.update_noteq n4, Function.update_noteq n3,
    Function.update_noteq n2, Function.update_noteq n1]

/-- Witness for C8: on a server built for device 1, device 1's dispatch table
holds exactly the eight default bindings. -/
theorem c8_witness :
    ∃ t : functionCodeTable Unit, (NewServer Unit [1]).function 1 = some t ∧
      t 1 = some Handler.ReadCoils ∧
      t 2 = some Handler.ReadDiscreteInputs ∧
      t 3 = some Handler.ReadHoldingRegisters ∧
      t 4 = some Handler.ReadInputRegisters ∧
      t 5 = some Handler.WriteSingleCoil ∧
      t 6 = some Handler.WriteHoldingRegister ∧
      t 15 = some Handler.WriteMultipleCoils ∧
      t 16 = some Handler.WriteHoldingRegisters ∧
      ∀ fc : U8, fc ∉ ([1, 2, 3, 4, 5, 6, 15, 16] : List U8) → t fc = none :=
  c8_default_bindings [1] 1 (by decide)
